import Mathlib

/-!
Verification of the notes-API core (token service, access guard, rate
governor, cache layer) against its specification.

The definitions below are a shallow embedding of the Python sources:

* `12_задание_Amina_Moldybai/data.py` — token issuance and `get_current_user`;
* `18_задание_Amina_Moldybai/rate_limiter.py` — `RateLimiterMiddleware.dispatch`;
* `19_задание_Amina_Moldybai/notes.py` — cache-aware note handlers;
* `19_задание_Amina_Moldybai/main.py` — `require_role`, `register`;
* `8_задание_Amina_Moldybai/schemas.py` — the pydantic/SQLModel schemas.

External collaborators are modelled by their contracts: the Redis store is a
key-value map whose `GET`/`SET`/`DEL` act on exact (literal) keys — Redis
`DEL` performs no pattern matching — and the JWT library (`jose`) is modelled
symbolically (a signed token records its claims and the signing secret; a
signature check succeeds exactly for the signing secret, which is the
standard symbolic model of an unforgeable MAC).
-/

namespace App

/-! ### Data model (schemas.py) -/

/-- `User` row from `schemas.py`: id, username, password (hash), role. -/
structure User where
  id : Nat
  username : String
  password : String
  role : String
deriving DecidableEq, Repr

/-- `Note` row from `schemas.py`: id, title, content, owner_id. -/
structure Note where
  id : Nat
  title : String
  content : String
  owner_id : Nat
deriving DecidableEq, Repr

/-- `UserCreate` request schema (task 8 `schemas.py`, the file the claim
cites; the task 19 `schemas.py` is not under `src/`): it carries exactly a
username and a password — there is no role field. -/
structure UserCreate where
  username : String
  password : String
deriving DecidableEq, Repr

/-- `NoteCreate` request schema: title and content. -/
structure NoteCreate where
  title : String
  content : String
deriving DecidableEq, Repr

/-- `NoteUpdate` request schema: optional title and content. -/
structure NoteUpdate where
  title : Option String := none
  content : Option String := none
deriving DecidableEq, Repr

/-- `fastapi.HTTPException`, reduced to the observable pair
(status_code, detail). -/
structure HTTPException where
  status : Nat
  detail : String
deriving DecidableEq, Repr

/-! ### Token service (data.py) -/

/-- The server-held signing secret `SECRET_KEY` from `data.py`. -/
def SECRET_KEY : String :=
  "1234567890abcdef1234567890abcdef1234567890abcdef1234567890abcdef"

/-- Claim set of a JWT: the `sub` claim (absent when the encoded dict had
none) and the absolute expiry timestamp `exp`, in seconds. -/
structure JwtClaims where
  sub : Option String
  exp : Nat
deriving DecidableEq, Repr

/-- Symbolic JWT: a well-formed token records its claims together with the
secret that signed it (the symbolic model of an unforgeable MAC), and
`malformed` covers every string that is not a structurally valid signed
token. -/
inductive JwtToken
  | signed (claims : JwtClaims) (secret : String)
  | malformed (raw : String)
deriving DecidableEq, Repr

/-- The distinct failure causes of `jose.jwt.decode`, kept separate here so
that the theorems can show the interface collapses them. -/
inductive JWTError
  | malformedToken
  | badSignature
  | expiredSignature
deriving DecidableEq, Repr

/-- Modelled from the spec: `jose.jwt.decode(token, secret, algorithms)` is
library code outside `src/`; per the spec it "verifies signature integrity
and that current time is before the embedded expiry", so decoding succeeds
exactly when the token is structurally valid, was signed with `secret`, and
`now < exp`. Each failure keeps its cause (the caller collapses them). -/
def jwt_decode (token : JwtToken) (secret : String) (now : Nat) :
    Except JWTError JwtClaims :=
  match token with
  | .malformed _ => .error .malformedToken
  | .signed claims sigSecret =>
    if sigSecret ≠ secret then .error .badSignature
    else if now < claims.exp then .ok claims
    else .error .expiredSignature

/-- `ACCESS_TOKEN_EXPIRE_MINUTES = 30` from `data.py`. -/
def ACCESS_TOKEN_EXPIRE_MINUTES : Nat := 30

/-- `create_access_token(data, expires_delta)` from `data.py`: copies the
claims (here, the `sub` value the call sites pass), adds
`exp = now + (expires_delta or 30 minutes)` and signs with the server
secret. The secret is a parameter standing for the module constant
`SECRET_KEY`; `now` and `expires_delta` are in seconds. -/
def create_access_token (sub : Option String) (expires_delta : Option Nat)
    (now : Nat) (secret : String) : JwtToken :=
  let expire := now + expires_delta.getD (30 * 60)
  .signed { sub := sub, exp := expire } secret

/-- The single `credentials_exception` raised by `get_current_user`. -/
def credentials_exception : HTTPException :=
  { status := 401, detail := "Could not validate credentials" }

/-- `get_user(username, db)` from `data.py`: first user row whose username
matches. -/
def get_user (username : String) (db : List User) : Option User :=
  db.find? (fun u => u.username = username)

/-- `get_current_user(token, db)` from `data.py`: decode the token with
`SECRET_KEY`; on any `JWTError`, on a missing `sub` claim, and on a missing
user row, raise the one `credentials_exception`. -/
def get_current_user (token : JwtToken) (now : Nat) (db : List User) :
    Except HTTPException User :=
  match jwt_decode token SECRET_KEY now with
  | .error _ => .error credentials_exception
  | .ok payload =>
    match payload.sub with
    | none => .error credentials_exception
    | some username =>
      match get_user username db with
      | none => .error credentials_exception
      | some user => .ok user

/-! ### Access guard and registration (main.py) -/

/-- The 403 raised by the checker `require_role` returns. -/
def forbidden_exception : HTTPException :=
  { status := 403, detail := "Operation not permitted" }

/-- `require_role(role)` from `main.py`: the returned dependency rejects an
authenticated user with `403 Operation not permitted` unless
`user.role == role` (strict string equality). -/
def require_role (role : String) (user : User) : Except HTTPException User :=
  if user.role ≠ role then .error forbidden_exception
  else .ok user

/-- `hash_password` wraps `pwd_context.hash` (bcrypt, library code);
modelled symbolically as an opaque injective tagging of the plaintext. No
claim depends on the structure of the digest. -/
def hash_password (password : String) : String :=
  "$2b$12$" ++ password

/-- Fresh primary key for a user insert (autoincrement). -/
def nextUserId (db : List User) : Nat :=
  (db.map (fun u => u.id)).foldr max 0 + 1

/-- `register(user, db)` from `main.py`: reject a taken username with 400,
otherwise hash the password and insert
`User(username=..., password=..., role="user")` — the role is the literal
`"user"`, the request schema has no role field. Returns the handler result
and the database after the call. -/
def register (uc : UserCreate) (db : List User) :
    Except HTTPException User × List User :=
  match get_user uc.username db with
  | some _ =>
    (.error { status := 400, detail := "Username already registered" }, db)
  | none =>
    let hashed := hash_password uc.password
    let new_user : User :=
      { id := nextUserId db, username := uc.username, password := hashed,
        role := "user" }
    (.ok new_user, db ++ [new_user])

/-! ### The shared Redis store (redis_cache.py collaborator)

Keys and values are strings (`decode_responses=True`). `GET`/`SET`/`DEL`
act on exact literal keys: Redis `DEL` takes key names and performs no
pattern matching. The `ex` (ttl) argument is carried but expiry is not
modelled: no scenario of a claim reads an entry past its lifetime (the fresh
rate-limit window of C2 uses a different key, not an expired one). -/

/-- The store state: a map from keys to values. -/
abbrev Store := String → Option String

/-- `SET key value EX ttl` (the ttl is recorded by the signature only; see
the section comment). -/
def Store.set (st : Store) (k v : String) (_ttl : Nat) : Store :=
  fun k' => if k' = k then some v else st k'

/-- `DEL key`: removes exactly the literal key `k`. -/
def Store.del (st : Store) (k : String) : Store :=
  fun k' => if k' = k then none else st k'

/-- The empty store. -/
def Store.empty : Store := fun _ => none

/-- Errors a store call can raise (connection loss, timeout). -/
inductive StoreErr
  | unavailable
deriving DecidableEq, Repr

/-- A connection to the shared store, as the request handlers see it:
`σ` is the state of the connection, and every call can fail. `get` returns the
looked-up value together with the state (a real `GET` leaves the store
unchanged; the state is threaded so that an instrumented connection can
record the call). -/
structure RedisConn (σ : Type) where
  get : σ → String → Except StoreErr (Option String × σ)
  set : σ → String → String → Nat → Except StoreErr σ

/-- The healthy connection to a `Store`: never fails. -/
def goodConn : RedisConn Store where
  get st k := .ok (st k, st)
  set st k v ttl := .ok (st.set k v ttl)

/-- A connection whose store is down: every call raises. -/
def downConn : RedisConn Unit where
  get _ _ := .error .unavailable
  set _ _ _ _ := .error .unavailable

/-! ### Rate Governor (rate_limiter.py) -/

/-- What `dispatch` does with the request: forward it to `call_next`, or
return a response of its own (`Response("Too Many Requests", 429)`). -/
inductive RLOutcome
  | forwarded
  | response (status : Nat) (body : String)
deriving DecidableEq, Repr

/-- The window key `f"rate:{client_ip}:{window_start}"` with
`window_start = now - (now % window)` (both f-strings of `dispatch`
composed). -/
def window_key (client_ip : String) (now window : Nat) : String :=
  "rate:" ++ client_ip ++ ":" ++ Nat.repr (now - now % window)

/-- Python `int(...)` on the decimal strings the limiter itself stores
(the only values it ever reads back; on anything else `int()` raises).
Written as a structural fold so concrete runs evaluate in the kernel. -/
def pyInt (s : String) : Nat :=
  s.data.foldl (fun n c => n * 10 + (c.toNat - '0'.toNat)) 0

/-- `RateLimiterMiddleware.dispatch` from `rate_limiter.py`, line by line:
read the counter at the window key; if absent, `SET key 1 EX window` and
take `count = 1`, else `count = int(count) + 1` and `SET key count
EX window`; finally return 429 when `count > limit`, otherwise forward.
Any store failure propagates (there is no try/except in the source). -/
def dispatch (conn : RedisConn σ) (limit window : Nat) (client_ip : String)
    (now : Nat) (st : σ) : Except StoreErr (RLOutcome × σ) := do
  let wk := window_key client_ip now window
  let (c, st) ← conn.get st wk
  let (count, st) ←
    match c with
    | none => do
      let st ← conn.set st wk (Nat.repr 1) window
      pure (1, st)
    | some c => do
      let count := pyInt c + 1
      let st ← conn.set st wk (Nat.repr count) window
      pure (count, st)
  if count > limit then
    pure (.response 429 "Too Many Requests", st)
  else
    pure (.forwarded, st)

/-- Sequential requests: run `dispatch` once per timestamp in the list,
threading the store, and collect the outcomes. -/
def runSeq (conn : RedisConn σ) (limit window : Nat) (client_ip : String) :
    List Nat → σ → Except StoreErr (List RLOutcome × σ)
  | [], st => .ok ([], st)
  | t :: ts, st => do
    let (o, st) ← dispatch conn limit window client_ip t st
    let (os, st) ← runSeq conn limit window client_ip ts st
    .ok (o :: os, st)

/-! ### Cache Layer and note handlers (notes.py) -/

/-- Python `str(search)` as interpolated by the f-string: `None` prints as
`"None"`. -/
def searchStr : Option String → String
  | none => "None"
  | some s => s

/-- The listing cache key
`f"notes:{current_user.id}:{skip}:{limit}:{search}"`. -/
def cache_key (uid skip limit : Nat) (search : Option String) : String :=
  "notes:" ++ Nat.repr uid ++ ":" ++ Nat.repr skip ++ ":" ++
    Nat.repr limit ++ ":" ++ searchStr search

/-- The key the mutation handlers pass to `redis.delete`:
`f"notes:{current_user.id}:*"` — a literal key name containing an
asterisk. -/
def invalidation_key (uid : Nat) : String :=
  "notes:" ++ Nat.repr uid ++ ":*"

/-- Contiguous-substring test on character lists. -/
def containsSub (pat : List Char) : List Char → Bool
  | [] => pat.isEmpty
  | c :: rest => pat.isPrefixOf (c :: rest) || containsSub pat rest

/-- Case-insensitive containment, modelling SQL
`title ILIKE '%search%'`. -/
def titleILike (search title : String) : Bool :=
  containsSub (search.data.map Char.toLower) (title.data.map Char.toLower)

/-- The record-store query of `get_notes`:
`select(Note).where(owner_id == uid)`, then `.where(title.ilike(...))`
when `search` is truthy (Python: `None` and `""` are falsy), then
`.offset(skip).limit(limit)`. -/
def queryNotes (db : List Note) (uid : Nat) (search : Option String)
    (skip limit : Nat) : List Note :=
  let q := db.filter (fun n => n.owner_id = uid)
  let q :=
    match search with
    | none => q
    | some s => if s = "" then q else q.filter (fun n => titleILike s n.title)
  (q.drop skip).take limit

/-- `json.dumps(note.dict())` for one note (string escaping is not
modelled; the claims only compare serializations for equality). -/
def serializeNote (n : Note) : String :=
  "\x7b\"id\": " ++ Nat.repr n.id ++ ", \"title\": \"" ++ n.title ++
    "\", \"content\": \"" ++ n.content ++ "\", \"owner_id\": " ++
    Nat.repr n.owner_id ++ "\x7d"

/-- `json.dumps([note.dict() for note in notes])`. -/
def serializeNotes (ns : List Note) : String :=
  "[" ++ String.intercalate ", " (ns.map serializeNote) ++ "]"

/-- Fresh primary key for a note insert (autoincrement). -/
def nextNoteId (db : List Note) : Nat :=
  (db.map (fun n => n.id)).foldr max 0 + 1

/-- `create_note(note, current_user, db)` from `notes.py`: insert the new
row with `owner_id = current_user.id` and return it. The handler performs
no cache operation at all — its signature has no store. -/
def create_note (nc : NoteCreate) (user : User) (db : List Note) :
    Note × List Note :=
  let new_note : Note :=
    { id := nextNoteId db, title := nc.title, content := nc.content,
      owner_id := user.id }
  (new_note, db ++ [new_note])

/-- `get_notes(current_user, db, skip, limit, search)` from `notes.py`:
on a cache hit return the cached body without touching the record store;
on a miss run the query, cache the serialized result with `ex=60` and
return it. The result is the HTTP body together with the store after the
call. -/
def get_notes (user : User) (db : List Note) (skip limit : Nat)
    (search : Option String) (st : Store) : String × Store :=
  let k := cache_key user.id skip limit search
  match st k with
  | some cached => (cached, st)
  | none =>
    let notes := queryNotes db user.id search skip limit
    let body := serializeNotes notes
    (body, st.set k body 60)

/-- `db.get(Note, note_id)`: lookup by primary key (first row with the
id). -/
def dbGet (db : List Note) (note_id : Nat) : Option Note :=
  db.find? (fun n => n.id = note_id)

/-- The 404 raised by the single-note handlers. -/
def note_not_found : HTTPException :=
  { status := 404, detail := "Note not found" }

/-- The 403 of `get_note`. -/
def get_note_forbidden : HTTPException :=
  { status := 403, detail := "Not authorized to access this note" }

/-- The 403 of `update_note`. -/
def update_forbidden : HTTPException :=
  { status := 403, detail := "Not authorized to update this note" }

/-- The 403 of `delete_note`. -/
def delete_forbidden : HTTPException :=
  { status := 403, detail := "Not authorized to delete this note" }

/-- `get_note(note_id, current_user, db)` from `notes.py`: 404 when the id
does not exist, 403 when the note belongs to someone else, otherwise the
note. -/
def get_note (note_id : Nat) (user : User) (db : List Note) :
    Except HTTPException Note :=
  match dbGet db note_id with
  | none => .error note_not_found
  | some note =>
    if note.owner_id ≠ user.id then .error get_note_forbidden
    else .ok note

/-- In-place mutation of the fetched row, as the session sees it: the first
row with the id is replaced, every other row is untouched. -/
def replaceFirst (db : List Note) (note_id : Nat) (n' : Note) : List Note :=
  match db with
  | [] => []
  | n :: rest =>
    if n.id = note_id then n' :: rest
    else n :: replaceFirst rest note_id n'

/-- `update_note(note_id, note_update, current_user, db)` from `notes.py`,
in source order: first `redis.delete(f"notes:{uid}:*")`, then the 404 and
403 checks, then apply the optional title/content updates, commit, and
`redis.delete(f"notes:{uid}:*")` again. Returns (handler result, db after,
store after). -/
def update_note (note_id : Nat) (upd : NoteUpdate) (user : User)
    (db : List Note) (st : Store) :
    Except HTTPException Note × List Note × Store :=
  let st := st.del (invalidation_key user.id)
  match dbGet db note_id with
  | none => (.error note_not_found, db, st)
  | some note =>
    if note.owner_id ≠ user.id then (.error update_forbidden, db, st)
    else
      let note' : Note :=
        { note with title := upd.title.getD note.title,
                    content := upd.content.getD note.content }
      let db' := replaceFirst db note_id note'
      let st := st.del (invalidation_key user.id)
      (.ok note', db', st)

/-- `delete_note(note_id, current_user, db)` from `notes.py`: the 404 and
403 checks, then `db.delete(note)`, commit, and
`redis.delete(f"notes:{uid}:*")`. Returns (handler result, db after, store
after). -/
def delete_note (note_id : Nat) (user : User) (db : List Note) (st : Store) :
    Except HTTPException Unit × List Note × Store :=
  match dbGet db note_id with
  | none => (.error note_not_found, db, st)
  | some note =>
    if note.owner_id ≠ user.id then (.error delete_forbidden, db, st)
    else
      let db' := db.erase note
      let st' := st.del (invalidation_key user.id)
      (.ok (), db', st')

/-! ### Decimal representation facts

The cache keys are f-strings whose owner segment is the decimal
representation of the owner id. The lemmas here establish that
`Nat.repr` produces digit characters only and is injective, so keys of
distinct owners can never collide (even through a colon-containing search
term, which can only land in the final segment). -/

/-- Accumulated decimal value of a character list. -/
def digitsValFrom (v : Nat) (l : List Char) : Nat :=
  l.foldl (fun a c => a * 10 + (c.toNat - '0'.toNat)) v

/-- Decimal value of a character list. -/
def digitsVal (l : List Char) : Nat := digitsValFrom 0 l

lemma digitsValFrom_append (v : Nat) (l l' : List Char) :
    digitsValFrom v (l ++ l') = digitsValFrom (digitsValFrom v l) l' := by
  simp [digitsValFrom, List.foldl_append]

lemma digitsValFrom_single (v : Nat) (c : Char) :
    digitsValFrom v [c] = v * 10 + (c.toNat - '0'.toNat) := rfl

lemma digitChar_val {m : Nat} (h : m < 10) :
    (Nat.digitChar m).toNat - '0'.toNat = m := by
  interval_cases m <;> decide

lemma digitChar_isDigit {m : Nat} (h : m < 10) :
    (Nat.digitChar m).isDigit = true := by
  interval_cases m <;> decide

lemma toDigitsCore_append (fuel : Nat) :
    ∀ (n : Nat) (acc : List Char),
      Nat.toDigitsCore 10 fuel n acc = Nat.toDigitsCore 10 fuel n [] ++ acc := by
  induction fuel with
  | zero => intro n acc; simp [Nat.toDigitsCore]
  | succ f ih =>
    intro n acc
    show (if n / 10 = 0 then Nat.digitChar (n % 10) :: acc
          else Nat.toDigitsCore 10 f (n / 10) (Nat.digitChar (n % 10) :: acc))
        = _
    by_cases h : n / 10 = 0
    · simp [h, Nat.toDigitsCore]
    · rw [if_neg h]
      show _ = (if n / 10 = 0 then Nat.digitChar (n % 10) :: ([] : List Char)
          else Nat.toDigitsCore 10 f (n / 10) [Nat.digitChar (n % 10)]) ++ acc
      rw [if_neg h, ih (n / 10) (Nat.digitChar (n % 10) :: acc),
        ih (n / 10) [Nat.digitChar (n % 10)], List.append_assoc]
      rfl

lemma toDigitsCore_val (fuel : Nat) :
    ∀ n : Nat, n < fuel → digitsVal (Nat.toDigitsCore 10 fuel n []) = n := by
  induction fuel with
  | zero => intro n h; omega
  | succ f ih =>
    intro n h
    show digitsVal (if n / 10 = 0 then Nat.digitChar (n % 10) :: []
          else Nat.toDigitsCore 10 f (n / 10) [Nat.digitChar (n % 10)]) = n
    by_cases h0 : n / 10 = 0
    · have hn : n < 10 := by omega
      rw [if_pos h0]
      show digitsValFrom 0 [Nat.digitChar (n % 10)] = n
      rw [digitsValFrom_single, digitChar_val (Nat.mod_lt n (by decide))]
      omega
    · rw [if_neg h0, toDigitsCore_append]
      have hlt : n / 10 < f := by
        have h1 : n / 10 < n := Nat.div_lt_self (by omega) (by decide)
        omega
      have := ih (n / 10) hlt
      show digitsValFrom 0 (Nat.toDigitsCore 10 f (n / 10) [] ++
        [Nat.digitChar (n % 10)]) = n
      rw [digitsValFrom_append]
      show digitsValFrom (digitsVal (Nat.toDigitsCore 10 f (n / 10) []))
        [Nat.digitChar (n % 10)] = n
      rw [this, digitsValFrom_single, digitChar_val (Nat.mod_lt n (by decide))]
      omega

lemma toDigitsCore_isDigit (fuel : Nat) :
    ∀ (n : Nat) (c : Char), c ∈ Nat.toDigitsCore 10 fuel n [] →
      c.isDigit = true := by
  induction fuel with
  | zero => intro n c hc; simp [Nat.toDigitsCore] at hc
  | succ f ih =>
    intro n c hc
    rw [show Nat.toDigitsCore 10 (f + 1) n [] =
        (if n / 10 = 0 then Nat.digitChar (n % 10) :: []
         else Nat.toDigitsCore 10 f (n / 10) [Nat.digitChar (n % 10)])
        from rfl] at hc
    by_cases h0 : n / 10 = 0
    · rw [if_pos h0] at hc
      simp at hc
      subst hc
      exact digitChar_isDigit (Nat.mod_lt n (by decide))
    · rw [if_neg h0, toDigitsCore_append] at hc
      rcases List.mem_append.mp hc with h | h
      · exact ih (n / 10) c h
      · simp at h
        subst h
        exact digitChar_isDigit (Nat.mod_lt n (by decide))

lemma repr_data (n : Nat) :
    (Nat.repr n).data = Nat.toDigitsCore 10 (n + 1) n [] := rfl

lemma repr_data_isDigit (n : Nat) :
    ∀ c ∈ (Nat.repr n).data, c.isDigit = true := by
  intro c hc
  rw [repr_data] at hc
  exact toDigitsCore_isDigit (n + 1) n c hc

lemma repr_data_no_colon (n : Nat) : ∀ c ∈ (Nat.repr n).data, c ≠ ':' := by
  intro c hc hcolon
  have := repr_data_isDigit n c hc
  subst hcolon
  exact absurd this (by decide)

lemma natRepr_injective {a b : Nat} (h : Nat.repr a = Nat.repr b) : a = b := by
  have hd : (Nat.repr a).data = (Nat.repr b).data := congrArg String.data h
  rw [repr_data, repr_data] at hd
  have ha := toDigitsCore_val (a + 1) a (by omega)
  have hb := toDigitsCore_val (b + 1) b (by omega)
  rw [hd] at ha
  omega

/-- Splitting two colon-decomposed lists at their first colon: if the parts
before the colon are colon-free, they agree, and so do the tails. -/
lemma colon_split :
    ∀ (x y u v : List Char), (∀ c ∈ x, c ≠ ':') → (∀ c ∈ y, c ≠ ':') →
      x ++ ':' :: u = y ++ ':' :: v → x = y ∧ u = v := by
  intro x
  induction x with
  | nil =>
    intro y u v _ hy h
    cases y with
    | nil =>
      refine ⟨rfl, ?_⟩
      simpa using h
    | cons b y' =>
      exfalso
      have hb : (':' : Char) = b := by
        have := congrArg (fun l => l.head?) h
        simpa using this
      exact hy b (by simp) hb.symm
  | cons a x' ih =>
    intro y u v hx hy h
    cases y with
    | nil =>
      exfalso
      have hb : a = ':' := by
        have := congrArg (fun l => l.head?) h
        simpa using this
      exact hx a (by simp) hb
    | cons b y' =>
      simp only [List.cons_append, List.cons.injEq] at h
      obtain ⟨rfl, h2⟩ := h
      have := ih y' u v (fun c hc => hx c (by simp [hc]))
        (fun c hc => hy c (by simp [hc])) h2
      exact ⟨by rw [this.1], this.2⟩

/-! ### Cache-key disjointness -/

lemma data_append (s t : String) : (s ++ t).data = s.data ++ t.data := by
  cases s; cases t; rfl

lemma cache_key_data (uid s l : Nat) (q : Option String) :
    (cache_key uid s l q).data =
      'n' :: 'o' :: 't' :: 'e' :: 's' :: ':' :: ((Nat.repr uid).data ++
        ':' :: ((Nat.repr s).data ++ ':' :: ((Nat.repr l).data ++
        ':' :: (searchStr q).data))) := by
  show ("notes:" ++ Nat.repr uid ++ ":" ++ Nat.repr s ++ ":" ++
    Nat.repr l ++ ":" ++ searchStr q).data = _
  simp only [data_append, List.append_assoc]
  rfl

lemma invalidation_key_data (uid : Nat) :
    (invalidation_key uid).data =
      'n' :: 'o' :: 't' :: 'e' :: 's' :: ':' ::
        ((Nat.repr uid).data ++ ':' :: ['*']) := by
  show ("notes:" ++ Nat.repr uid ++ ":*").data = _
  simp only [data_append, List.append_assoc]
  rfl

lemma natRepr_data_inj {a b : Nat}
    (h : (Nat.repr a).data = (Nat.repr b).data) : a = b := by
  rw [repr_data, repr_data] at h
  have ha := toDigitsCore_val (a + 1) a (by omega)
  have hb := toDigitsCore_val (b + 1) b (by omega)
  rw [h] at ha
  omega

/-- Listing keys of distinct owners never collide: the owner segment is
digits-only, so no offset/limit/search combination (colons included) can
fake the prefix of another owner. -/
lemma cache_key_owner_inj {a b s l s' l' : Nat} {q q' : Option String}
    (h : cache_key a s l q = cache_key b s' l' q') : a = b := by
  have hd := congrArg String.data h
  rw [cache_key_data, cache_key_data] at hd
  simp only [List.cons.injEq, true_and] at hd
  exact natRepr_data_inj
    (colon_split _ _ _ _ (repr_data_no_colon a) (repr_data_no_colon b) hd).1

/-- The literal key `notes:{uid}:*` that the mutation handlers delete is
never a listing cache key: the third segment of a cache key starts with a digit
sequence followed by a colon while the deleted key ends at `*`. -/
lemma invalidation_key_ne_cache_key (a b s l : Nat) (q : Option String) :
    invalidation_key a ≠ cache_key b s l q := by
  intro h
  have hd := congrArg String.data h
  rw [invalidation_key_data, cache_key_data] at hd
  simp only [List.cons.injEq, true_and] at hd
  have h2 := (colon_split _ _ _ _ (repr_data_no_colon a)
    (repr_data_no_colon b) hd).2
  have hmem : (':' : Char) ∈ (Nat.repr s).data ++
      ':' :: ((Nat.repr l).data ++ ':' :: (searchStr q).data) :=
    List.mem_append_right _ (List.mem_cons_self _ _)
  rw [← h2] at hmem
  simp at hmem

lemma store_set_other (st : Store) (k v : String) (ttl : Nat) {k' : String}
    (h : k' ≠ k) : (st.set k v ttl) k' = st k' := by
  simp [Store.set, h]

lemma store_del_other (st : Store) (k : String) {k' : String}
    (h : k' ≠ k) : (st.del k) k' = st k' := by
  simp [Store.del, h]

/-- Deleting the wildcard-looking literal key never removes any
cached listing entry — of any owner, the mutating owner included. -/
lemma del_invalidation_key_preserves (st : Store) (a b s l : Nat)
    (q : Option String) :
    (st.del (invalidation_key a)) (cache_key b s l q) =
      st (cache_key b s l q) :=
  store_del_other st _ (fun h => invalidation_key_ne_cache_key a b s l q h.symm)

/-! ### Record-store projection lemmas -/

lemma dbGet_cons_pos {h : Note} {t : List Note} {nid : Nat}
    (hid : h.id = nid) : dbGet (h :: t) nid = some h := by
  simp [dbGet, List.find?_cons_of_pos, hid]

lemma dbGet_cons_neg {h : Note} {t : List Note} {nid : Nat}
    (hid : ¬ h.id = nid) : dbGet (h :: t) nid = dbGet t nid := by
  simp [dbGet, List.find?_cons_of_neg, hid]

lemma filter_replaceFirst (p : Note → Bool) :
    ∀ (db : List Note) (nid : Nat) (n' : Note),
      (∀ n, dbGet db nid = some n → p n = false) → p n' = false →
      (replaceFirst db nid n').filter p = db.filter p := by
  intro db
  induction db with
  | nil => intro nid n' _ _; rfl
  | cons h t ih =>
    intro nid n' hfound hn'
    show (if h.id = nid then n' :: t
      else h :: replaceFirst t nid n').filter p = _
    by_cases hid : h.id = nid
    · have hph : p h = false := hfound h (dbGet_cons_pos hid)
      rw [if_pos hid, List.filter_cons, List.filter_cons, hph, hn']
      simp
    · rw [if_neg hid, List.filter_cons, List.filter_cons,
        ih nid n' (fun n hf => hfound n (by rw [dbGet_cons_neg hid]; exact hf))
          hn']

lemma filter_erase (p : Note → Bool) (n₀ : Note) (hp : p n₀ = false) :
    ∀ db : List Note, (db.erase n₀).filter p = db.filter p := by
  intro db
  induction db with
  | nil => rfl
  | cons h t ih =>
    rw [List.erase_cons]
    by_cases he : h = n₀
    · subst he
      rw [if_pos (by simp), List.filter_cons, hp]
      simp
    · rw [if_neg (by simpa using he), List.filter_cons, List.filter_cons, ih]

lemma queryNotes_congr {db db' : List Note} {uid : Nat}
    (h : db'.filter (fun n => n.owner_id = uid) =
      db.filter (fun n => n.owner_id = uid)) :
    ∀ search skip limit,
      queryNotes db' uid search skip limit =
        queryNotes db uid search skip limit := by
  intro search skip limit
  unfold queryNotes
  rw [h]

/-! ### Owner mutations, abstracted for the cache claims -/

/-- One owner-scoped mutation: the three mutating note handlers. -/
inductive Mutation
  | createM (nc : NoteCreate)
  | updateM (note_id : Nat) (upd : NoteUpdate)
  | deleteM (note_id : Nat)

/-- Run one mutation handler for `user`, returning the record store and the
cache store after the call (the HTTP result of the handler is dropped). -/
def applyMutation (m : Mutation) (user : User) (db : List Note) (st : Store) :
    List Note × Store :=
  match m with
  | .createM nc => ((create_note nc user db).2, st)
  | .updateM nid upd => (update_note nid upd user db st).2
  | .deleteM nid => (delete_note nid user db st).2

/-- No mutation handler changes the store at any listing cache key: create
never touches the store, and update/delete only delete the literal
`notes:{uid}:*` key, which is no cache key. -/
lemma applyMutation_store (m : Mutation) (user : User) (db : List Note)
    (st : Store) (b s l : Nat) (q : Option String) :
    (applyMutation m user db st).2 (cache_key b s l q) =
      st (cache_key b s l q) := by
  cases m with
  | createM nc => rfl
  | updateM nid upd =>
    show (update_note nid upd user db st).2.2 _ = _
    unfold update_note
    cases hf : dbGet db nid with
    | none => simp [del_invalidation_key_preserves]
    | some note =>
      by_cases ho : note.owner_id ≠ user.id
      · simp [ho, del_invalidation_key_preserves]
      · simp [ho, del_invalidation_key_preserves]
  | deleteM nid =>
    show (delete_note nid user db st).2.2 _ = _
    unfold delete_note
    cases hf : dbGet db nid with
    | none => rfl
    | some note =>
      by_cases ho : note.owner_id ≠ user.id
      · simp [ho]
      · simp [ho, del_invalidation_key_preserves]

/-- A mutation by `user` leaves the rows of every other owner untouched. -/
lemma applyMutation_db_filter (m : Mutation) (user : User) (db : List Note)
    (st : Store) {bid : Nat} (hb : user.id ≠ bid) :
    ((applyMutation m user db st).1).filter (fun n => n.owner_id = bid) =
      db.filter (fun n => n.owner_id = bid) := by
  cases m with
  | createM nc =>
    show (db ++ [_]).filter _ = _
    rw [List.filter_append]
    simp [hb]
  | updateM nid upd =>
    show ((update_note nid upd user db st).2.1).filter _ = _
    unfold update_note
    cases hf : dbGet db nid with
    | none => simp
    | some note =>
      by_cases ho : note.owner_id ≠ user.id
      · simp [ho]
      · push_neg at ho
        simp only [ho, ne_eq, not_true_eq_false, if_false, ite_not]
        apply filter_replaceFirst
        · intro n hn
          rw [hf] at hn
          injection hn with hn
          subst hn
          simp [ho, hb]
        · simp [ho, hb]
  | deleteM nid =>
    show ((delete_note nid user db st).2.1).filter _ = _
    unfold delete_note
    cases hf : dbGet db nid with
    | none => rfl
    | some note =>
      by_cases ho : note.owner_id ≠ user.id
      · simp [ho]
      · push_neg at ho
        simp only [ho, ne_eq, not_true_eq_false, if_false, ite_not]
        exact filter_erase _ note (by simp [ho, hb]) db

/-- The body `get_notes` returns depends only on the value of the store at the
own cache key of the caller and on its own rows. -/
lemma get_notes_body_congr (b : User) (db db' : List Note) (s l : Nat)
    (q : Option String) (st st' : Store)
    (hst : st' (cache_key b.id s l q) = st (cache_key b.id s l q))
    (hdb : db'.filter (fun n => n.owner_id = b.id) =
      db.filter (fun n => n.owner_id = b.id)) :
    (get_notes b db' s l q st').1 = (get_notes b db s l q st).1 := by
  unfold get_notes
  dsimp only
  rw [hst]
  cases h : st (cache_key b.id s l q) with
  | some cached => simp [h]
  | none => simp [h, queryNotes_congr hdb]

/-- `get_notes` writes (at most) only the own cache key of its caller. -/
lemma get_notes_store_other (a : User) (db : List Note) (s l : Nat)
    (q : Option String) (st : Store) {k : String}
    (hk : k ≠ cache_key a.id s l q) :
    (get_notes a db s l q st).2 k = st k := by
  unfold get_notes
  dsimp only
  cases h : st (cache_key a.id s l q) with
  | some cached => simp [h]
  | none => simp [h, store_set_other _ _ _ _ hk]

/-! ### Claim theorems -/

/-- C3: every failing input to `get_current_user` — malformed token, bad
signature, missing `sub` claim, passed expiry, or unknown subject — yields
one and the same 401 `credentials_exception`; no failure cause is
distinguishable at the interface. The first conjunct is the universal
collapse; the rest exhibit each failure cause producing exactly that
error. -/
theorem C3_auth_failures_undifferentiated :
    (∀ (token : JwtToken) (now : Nat) (db : List User) (e : HTTPException),
      get_current_user token now db = .error e → e = credentials_exception)
    ∧ get_current_user (.malformed "not-a-jwt") 0 [] =
        .error credentials_exception
    ∧ get_current_user (.signed ⟨some "amina", 100⟩ "attacker-secret") 0 [] =
        .error credentials_exception
    ∧ get_current_user (.signed ⟨none, 100⟩ SECRET_KEY) 0 [] =
        .error credentials_exception
    ∧ get_current_user (.signed ⟨some "amina", 100⟩ SECRET_KEY) 100 [] =
        .error credentials_exception
    ∧ get_current_user (.signed ⟨some "amina", 100⟩ SECRET_KEY) 0 [] =
        .error credentials_exception := by
  refine ⟨?_, by rfl, by rfl, by rfl, by rfl, by rfl⟩
  intro token now db e h
  unfold get_current_user at h
  cases hd : jwt_decode token SECRET_KEY now with
  | error je =>
    rw [hd] at h
    dsimp only at h
    injection h with h
    exact h.symm
  | ok payload =>
    rw [hd] at h
    dsimp only at h
    cases hs : payload.sub with
    | none =>
      rw [hs] at h
      dsimp only at h
      injection h with h
      exact h.symm
    | some username =>
      rw [hs] at h
      dsimp only at h
      cases hu : get_user username db with
      | none =>
        rw [hu] at h
        dsimp only at h
        injection h with h
        exact h.symm
      | some user =>
        rw [hu] at h
        simp at h

theorem C3_witness :
    get_current_user (.malformed "x") 0 [] = .error credentials_exception
    ∧ credentials_exception = credentials_exception :=
  ⟨by rfl,
    C3_auth_failures_undifferentiated.1 (.malformed "x") 0 []
      credentials_exception (by rfl)⟩

/-- C5: a token issued by `create_access_token` for a subject under a
secret validates to that subject at every time strictly before the embedded
expiry `now + (expires_delta or 30 minutes)`, fails at or after the expiry,
and fails under any different secret at every time. The expiry comparison
follows the contract the spec states for the external JWT library ("current time is
before the embedded expiry"). -/
theorem C5_token_validation :
    ∀ (subject secret secret' : String) (delta : Option Nat) (now t : Nat),
      (t < now + delta.getD (30 * 60) →
        jwt_decode (create_access_token (some subject) delta now secret)
          secret t = .ok ⟨some subject, now + delta.getD (30 * 60)⟩)
      ∧ (now + delta.getD (30 * 60) ≤ t →
        jwt_decode (create_access_token (some subject) delta now secret)
          secret t = .error .expiredSignature)
      ∧ (secret' ≠ secret →
        jwt_decode (create_access_token (some subject) delta now secret)
          secret' t = .error .badSignature) := by
  intro subject secret secret' delta now t
  refine ⟨?_, ?_, ?_⟩
  · intro h
    unfold create_access_token jwt_decode
    dsimp only
    rw [if_neg (by simp), if_pos h]
  · intro h
    unfold create_access_token jwt_decode
    dsimp only
    rw [if_neg (by simp), if_neg (by omega)]
  · intro h
    unfold create_access_token jwt_decode
    dsimp only
    rw [if_pos (by exact fun hc => h hc.symm)]

theorem C5_witness :
    (0 < 0 + Option.getD none (30 * 60))
    ∧ jwt_decode (create_access_token (some "amina") none 0 "k1") "k1" 0 =
        .ok ⟨some "amina", 0 + Option.getD none (30 * 60)⟩ :=
  ⟨by decide, (C5_token_validation "amina" "k1" "k2" none 0 0).1 (by decide)⟩

/-- C6: `require_role` yields the 403 Forbidden exception exactly when the
role of the user differs from the required role, by strict string equality with
no hierarchy; in particular every user whose role is not `"admin"` is
rejected by the `"admin"` policy. -/
theorem C6_require_role_strict :
    ∀ (role : String) (user : User),
      (require_role role user = .error forbidden_exception ↔ user.role ≠ role)
      ∧ (user.role = role → require_role role user = .ok user)
      ∧ forbidden_exception.status = 403
      ∧ (user.role ≠ "admin" →
          require_role "admin" user = .error forbidden_exception) := by
  intro role user
  refine ⟨?_, ?_, rfl, ?_⟩
  · by_cases hr : user.role ≠ role <;> simp [require_role, hr]
  · intro h
    simp [require_role, h]
  · intro h
    simp [require_role, h]

theorem C6_witness :
    (("user" : String) ≠ "admin")
    ∧ require_role "admin" ⟨1, "amina", "pw", "user"⟩ =
        .error forbidden_exception :=
  ⟨by decide,
    (C6_require_role_strict "admin" ⟨1, "amina", "pw", "user"⟩).2.2.2
      (by decide)⟩

/-- C10: the registration handler persists every new identity with role
exactly `"user"`: `register` inserts `role="user"` literally, and the
request schema (`UserCreate`) carries no role field, so no request input
can produce another role. Every row of the database after a call is either
a pre-existing row or has role `"user"`. -/
theorem C10_register_role_user :
    ∀ (uc : UserCreate) (db : List User),
      (∀ u, (register uc db).1 = .ok u → u.role = "user")
      ∧ (∀ u ∈ (register uc db).2, u ∈ db ∨ u.role = "user") := by
  intro uc db
  unfold register
  cases hf : get_user uc.username db with
  | some u0 =>
    constructor
    · intro u h
      simp at h
    · intro u hu
      exact .inl (by simpa using hu)
  | none =>
    dsimp only
    constructor
    · intro u h
      injection h with h
      rw [← h]
    · intro u hu
      rw [List.mem_append] at hu
      rcases hu with h | h
      · exact .inl h
      · right
        simp at h
        rw [h]

theorem C10_witness :
    ((register ⟨"amina", "secretpw"⟩ []).1 =
      .ok ⟨1, "amina", "$2b$12$secretpw", "user"⟩)
    ∧ (⟨1, "amina", "$2b$12$secretpw", "user"⟩ : User).role = "user" :=
  ⟨by rfl,
    (C10_register_role_user ⟨"amina", "secretpw"⟩ []).1
      ⟨1, "amina", "$2b$12$secretpw", "user"⟩ (by rfl)⟩

/-- C9: for each single-note handler: a note owned by someone else yields
the corresponding 403 of the handler and leaves the database unchanged; a missing id yields
the 404; and a success implies the caller owns the row. The statuses of the
named exceptions are 403/404 as claimed. -/
theorem C9_single_note_ownership :
    ∀ (note_id : Nat) (user : User) (db : List Note) (st : Store)
      (upd : NoteUpdate),
      (∀ note, dbGet db note_id = some note → note.owner_id ≠ user.id →
        get_note note_id user db = .error get_note_forbidden
        ∧ update_note note_id upd user db st =
            (.error update_forbidden, db, st.del (invalidation_key user.id))
        ∧ delete_note note_id user db st = (.error delete_forbidden, db, st))
      ∧ (dbGet db note_id = none →
        get_note note_id user db = .error note_not_found
        ∧ update_note note_id upd user db st =
            (.error note_not_found, db, st.del (invalidation_key user.id))
        ∧ delete_note note_id user db st = (.error note_not_found, db, st))
      ∧ (∀ n, get_note note_id user db = .ok n →
          n.owner_id = user.id ∧ dbGet db note_id = some n)
      ∧ (∀ n, (update_note note_id upd user db st).1 = .ok n →
          ∃ n₀, dbGet db note_id = some n₀ ∧ n₀.owner_id = user.id)
      ∧ ((delete_note note_id user db st).1 = .ok () →
          ∃ n₀, dbGet db note_id = some n₀ ∧ n₀.owner_id = user.id)
      ∧ get_note_forbidden.status = 403 ∧ update_forbidden.status = 403
      ∧ delete_forbidden.status = 403 ∧ note_not_found.status = 404 := by
  intro note_id user db st upd
  refine ⟨?_, ?_, ?_, ?_, ?_, rfl, rfl, rfl, rfl⟩
  · intro note hf ho
    refine ⟨?_, ?_, ?_⟩
    · unfold get_note
      rw [hf]
      dsimp only
      rw [if_pos ho]
    · unfold update_note
      dsimp only
      rw [hf]
      dsimp only
      rw [if_pos ho]
    · unfold delete_note
      rw [hf]
      dsimp only
      rw [if_pos ho]
  · intro hf
    refine ⟨?_, ?_, ?_⟩
    · unfold get_note
      rw [hf]
    · unfold update_note
      dsimp only
      rw [hf]
    · unfold delete_note
      rw [hf]
  · intro n h
    unfold get_note at h
    cases hf : dbGet db note_id with
    | none =>
      rw [hf] at h
      simp at h
    | some note =>
      rw [hf] at h
      dsimp only at h
      by_cases ho : note.owner_id ≠ user.id
      · rw [if_pos ho] at h
        simp at h
      · rw [if_neg ho] at h
        injection h with h
        push_neg at ho
        rw [← h]
        exact ⟨ho, rfl⟩
  · intro n h
    unfold update_note at h
    dsimp only at h
    cases hf : dbGet db note_id with
    | none =>
      rw [hf] at h
      simp at h
    | some note =>
      rw [hf] at h
      dsimp only at h
      by_cases ho : note.owner_id ≠ user.id
      · rw [if_pos ho] at h
        simp at h
      · push_neg at ho
        exact ⟨note, rfl, ho⟩
  · intro h
    unfold delete_note at h
    cases hf : dbGet db note_id with
    | none =>
      rw [hf] at h
      simp at h
    | some note =>
      rw [hf] at h
      dsimp only at h
      by_cases ho : note.owner_id ≠ user.id
      · rw [if_pos ho] at h
        simp at h
      · push_neg at ho
        exact ⟨note, rfl, ho⟩

theorem C9_witness :
    (dbGet [⟨1, "t", "c", 2⟩] 1 = some ⟨1, "t", "c", 2⟩)
    ∧ ((⟨1, "t", "c", 2⟩ : Note).owner_id ≠ (⟨1, "u", "p", "user"⟩ : User).id)
    ∧ get_note 1 ⟨1, "u", "p", "user"⟩ [⟨1, "t", "c", 2⟩] =
        .error get_note_forbidden :=
  ⟨by decide, by decide,
    ((C9_single_note_ownership 1 ⟨1, "u", "p", "user"⟩ [⟨1, "t", "c", 2⟩]
      Store.empty ⟨none, none⟩).1 ⟨1, "t", "c", 2⟩ (by decide) (by decide)).1⟩

/-- C2: with `window=60`, `limit=5`, six sequential requests inside the
clock-aligned bucket `[0,60)` give five forwards and a sixth
`429 Too Many Requests`, and a request at `t=60` (the fresh bucket) is
forwarded again; in general, with any `limit ≥ 1`, a request whose
window key is absent from the store (a fresh bucket) is forwarded. -/
theorem C2_fixed_window_scenario :
    ((runSeq goodConn 5 60 "1.2.3.4" [0, 10, 20, 30, 40, 50, 60]
        Store.empty).toOption.map Prod.fst =
      some [.forwarded, .forwarded, .forwarded, .forwarded, .forwarded,
        .response 429 "Too Many Requests", .forwarded])
    ∧ ∀ (limit window : Nat) (ip : String) (now : Nat) (st : Store),
        1 ≤ limit → st (window_key ip now window) = none →
        (dispatch goodConn limit window ip now st).toOption.map Prod.fst =
          some .forwarded := by
  constructor
  · decide
  · intro limit window ip now st hlim hnone
    unfold dispatch
    simp only [goodConn, hnone]
    show (Option.map Prod.fst (if 1 > limit then
        (Except.ok (RLOutcome.response 429 "Too Many Requests",
          st.set (window_key ip now window) (Nat.repr 1) window) :
            Except StoreErr (RLOutcome × Store))
      else Except.ok (RLOutcome.forwarded,
        st.set (window_key ip now window) (Nat.repr 1) window)).toOption) =
      some RLOutcome.forwarded
    rw [if_neg (by omega)]
    rfl

theorem C2_witness :
    (1 ≤ 1) ∧ (Store.empty (window_key "1.2.3.4" 60 60) = none)
    ∧ (dispatch goodConn 1 60 "1.2.3.4" 60 Store.empty).toOption.map
        Prod.fst = some .forwarded :=
  ⟨by omega, rfl,
    C2_fixed_window_scenario.2 1 60 "1.2.3.4" 60 Store.empty (by omega) rfl⟩

/-- C4 counterexample: with the counter store down, the request is NOT
rejected with the 429 rate-limit response — `dispatch` produces no response
at all (its `toOption` is `none`): the store error escapes unhandled, so
the claimed fail-closed 429 rejection does not happen. -/
theorem C4_counterexample :
    (dispatch downConn 5 60 "1.2.3.4" 0 ()).toOption = none
    ∧ dispatch downConn 5 60 "1.2.3.4" 0 () = .error .unavailable :=
  ⟨rfl, rfl⟩

/-- C4 (amended): when the counter-store `GET` raises, `dispatch` neither
forwards the request (limiting is not silently disabled) nor returns the
429 response: the source has no try/except, so the store error propagates
out of the middleware unchanged. -/
theorem C4_store_failure_propagates :
    ∀ {σ : Type} (conn : RedisConn σ) (limit window : Nat) (ip : String)
      (now : Nat) (st : σ) (e : StoreErr),
      conn.get st (window_key ip now window) = .error e →
      dispatch conn limit window ip now st = .error e := by
  intro σ conn limit window ip now st e h
  unfold dispatch
  dsimp only
  rw [h]
  rfl

theorem C4_witness :
    (downConn.get () (window_key "1.2.3.4" 0 60) =
      .error StoreErr.unavailable)
    ∧ dispatch downConn 5 60 "1.2.3.4" 0 () = .error .unavailable :=
  ⟨rfl,
    C4_store_failure_propagates downConn 5 60 "1.2.3.4" 0 () .unavailable rfl⟩

/-! ### Store-operation traces, for the atomicity claim -/

/-- A primitive operation issued against the shared store. -/
inductive ROp
  | get (k : String)
  | set (k : String) (v : String) (ttl : Nat)
  | del (k : String)
deriving DecidableEq, Repr

/-- The key an operation touches. -/
def ROp.key : ROp → String
  | .get k => k
  | .set k _ _ => k
  | .del k => k

/-- An instrumented connection: same behaviour as `goodConn`, but every
issued operation is appended to a log. -/
def traceConn : RedisConn (Store × List ROp) where
  get p k := .ok (p.1 k, (p.1, p.2 ++ [.get k]))
  set p k v ttl := .ok (Store.set p.1 k v ttl, p.2 ++ [.set k v ttl])

/-- Replay one primitive operation against a store. -/
def applyROp (st : Store) : ROp → Store
  | .get _ => st
  | .set k v ttl => st.set k v ttl
  | .del k => st.del k

/-- Replay a sequence of primitive operations. -/
def applyROps (st : Store) (ops : List ROp) : Store :=
  ops.foldl applyROp st

lemma except_bind_ok {α β : Type} (a : α) (f : α → Except StoreErr β) :
    (Except.ok a : Except StoreErr α) >>= f = f a := rfl

lemma except_pure {α : Type} (a : α) :
    (pure a : Except StoreErr α) = .ok a := rfl

/-- Closed form of one instrumented `dispatch`: on any store it issues
exactly a `GET` of the window key followed by a `SET` of the same key
(with the value computed from what the `GET` returned), and succeeds. -/
lemma dispatch_traceConn_eq (limit window : Nat) (ip : String) (now : Nat)
    (st : Store) (tr : List ROp) :
    dispatch traceConn limit window ip now (st, tr) =
      (let wk := window_key ip now window
       let count := match st wk with | none => 1 | some c => pyInt c + 1
       Except.ok
        ((if count > limit then .response 429 "Too Many Requests"
          else .forwarded),
         (st.set wk (Nat.repr count) window,
          tr ++ [ROp.get wk, ROp.set wk (Nat.repr count) window]))) := by
  unfold dispatch
  cases h : st (window_key ip now window) with
  | none =>
    simp only [traceConn, h]
    by_cases hc : 1 > limit <;>
      simp [hc, except_bind_ok, except_pure, List.append_assoc]
  | some c =>
    simp only [traceConn, h]
    by_cases hc : pyInt c + 1 > limit <;>
      simp [hc, except_bind_ok, except_pure, List.append_assoc]

/-- C8 counterexample: on a concrete request, the counter of the Rate Governor
update is not a single atomic operation against the store: the trace on
the window key has two operations — a `GET` followed by a separate `SET`
of the same key (a read-then-write). -/
theorem C8_counterexample :
    ¬ ((((dispatch traceConn 5 60 "1.2.3.4" 0 (Store.empty, [])).toOption.map
        (fun p => (p.2.2.filter (fun op => op.key =
          window_key "1.2.3.4" 0 60)).length)).getD 0) ≤ 1)
    ∧ (dispatch traceConn 5 60 "1.2.3.4" 0 (Store.empty, [])).toOption.map
        (fun p => p.2.2) =
      some [.get (window_key "1.2.3.4" 0 60),
            .set (window_key "1.2.3.4" 0 60) (Nat.repr 1) 60] := by
  constructor
  · decide
  · decide

/-- C8 (amended): the listing-cache put and the owner invalidation are
single store operations, but the window-counter update is a non-atomic
read-then-write: on every store state the dispatch trace is a `GET` of the
window key followed by a separate `SET` of it, and interleaving the
operations of two handlers (both `GET`s before both `SET`s, a valid schedule
because a `GET` does not change the store) loses an increment — two first
requests leave the counter at `"1"`, whereas running them sequentially
leaves `"2"`. -/
theorem C8_counter_update_not_atomic :
    (∀ (limit window : Nat) (ip : String) (now : Nat) (st : Store),
      ∃ v, (dispatch traceConn limit window ip now (st, [])).toOption.map
          (fun p => p.2.2) =
        some [.get (window_key ip now window),
              .set (window_key ip now window) v window])
    ∧ applyROps Store.empty
        [.get (window_key "1.2.3.4" 0 60), .get (window_key "1.2.3.4" 0 60),
         .set (window_key "1.2.3.4" 0 60) (Nat.repr 1) 60,
         .set (window_key "1.2.3.4" 0 60) (Nat.repr 1) 60]
        (window_key "1.2.3.4" 0 60) = some "1"
    ∧ (runSeq goodConn 5 60 "1.2.3.4" [0, 0] Store.empty).toOption.map
        (fun p => p.2 (window_key "1.2.3.4" 0 60)) = some (some "2")
    ∧ (∀ (user : User) (db : List Note) (s l : Nat) (q : Option String)
        (st : Store),
        (get_notes user db s l q st).2 = st
        ∨ (get_notes user db s l q st).2 =
            st.set (cache_key user.id s l q)
              (serializeNotes (queryNotes db user.id q s l)) 60)
    ∧ (∀ (note_id : Nat) (user : User) (db : List Note) (st : Store),
        (delete_note note_id user db st).2.2 = st
        ∨ (delete_note note_id user db st).2.2 =
            st.del (invalidation_key user.id)) := by
  refine ⟨?_, by decide, by decide, ?_, ?_⟩
  · intro limit window ip now st
    refine ⟨Nat.repr (match st (window_key ip now window) with
      | none => 1 | some c => pyInt c + 1), ?_⟩
    rw [dispatch_traceConn_eq]
    rfl
  · intro user db s l q st
    unfold get_notes
    dsimp only
    cases h : st (cache_key user.id s l q) with
    | some cached => exact .inl rfl
    | none => exact .inr rfl
  · intro note_id user db st
    unfold delete_note
    cases hf : dbGet db note_id with
    | none => exact .inl rfl
    | some note =>
      dsimp only
      by_cases ho : note.owner_id ≠ user.id
      · rw [if_pos ho]
        exact .inl rfl
      · rw [if_neg ho]
        exact .inr rfl

/-- C1 is violated by the code: cached listing entries survive every
mutation handler. The first conjunct proves the general fact — every
mutation handler leaves the store unchanged at every listing cache key
(`create_note` issues no cache operation at all, and the `redis.delete`
of update/delete removes only the literal key `notes:{id}:*`, which is
never a cache key). The remaining conjuncts evaluate the failing input:
owner 1 caches a listing; a successful create (and then a successful
update and delete) leaves the entry in place, and the next identical
listing call returns the stale body instead of the fresh result. -/
theorem C1_cache_entries_survive_mutations :
    (∀ (m : Mutation) (user : User) (db : List Note) (st : Store)
        (b s l : Nat) (q : Option String),
      (applyMutation m user db st).2 (cache_key b s l q) =
        st (cache_key b s l q))
    ∧ (let u : User := ⟨1, "amina", "pw", "user"⟩
       let n1 : Note := ⟨1, "first", "text", 1⟩
       let st1 : Store := (get_notes u [n1] 0 10 none Store.empty).2
       let db1 : List Note := (create_note ⟨"second", "more"⟩ u [n1]).2
       st1 (cache_key 1 0 10 none) = some (serializeNotes [n1])
       ∧ db1 = [n1, ⟨2, "second", "more", 1⟩]
       ∧ (get_notes u db1 0 10 none st1).1 = serializeNotes [n1]
       ∧ serializeNotes (queryNotes db1 1 none 0 10) ≠ serializeNotes [n1]
       ∧ (update_note 1 ⟨some "edited", none⟩ u db1 st1).1 =
           .ok ⟨1, "edited", "text", 1⟩
       ∧ (update_note 1 ⟨some "edited", none⟩ u db1 st1).2.2
           (cache_key 1 0 10 none) = some (serializeNotes [n1])
       ∧ (delete_note 2 u db1 st1).1 = .ok ()
       ∧ (delete_note 2 u db1 st1).2.2 (cache_key 1 0 10 none) =
           some (serializeNotes [n1])) := by
  refine ⟨fun m user db st b s l q => applyMutation_store m user db st b s l q,
    ?_, ?_, ?_, ?_, ?_, ?_, ?_, ?_⟩
  · decide
  · decide
  · decide
  · decide
  · rfl
  · decide
  · rfl
  · decide

/-- C7: no cross-tenant cache bleed. For owners A and B with distinct ids:
a mutation by A leaves the cache entries of B unchanged; a listing read
by A leaves the cache entries of B unchanged (so B can never be served an
entry written for A); and two runs differing only in the mutation of A give B
byte-identical listing responses. -/
theorem C7_no_cross_tenant_bleed :
    ∀ (a b : User) (m : Mutation) (db : List Note) (st : Store)
      (s l : Nat) (q : Option String) (s' l' : Nat) (q' : Option String),
      a.id ≠ b.id →
      ((applyMutation m a db st).2 (cache_key b.id s l q) =
        st (cache_key b.id s l q))
      ∧ ((get_notes a db s' l' q' st).2 (cache_key b.id s l q) =
        st (cache_key b.id s l q))
      ∧ ((get_notes b (applyMutation m a db st).1 s l q
            (applyMutation m a db st).2).1 =
        (get_notes b db s l q st).1) := by
  intro a b m db st s l q s' l' q' hab
  refine ⟨applyMutation_store m a db st b.id s l q, ?_, ?_⟩
  · exact get_notes_store_other a db s' l' q' st
      (fun h => hab (cache_key_owner_inj h).symm)
  · exact get_notes_body_congr b db (applyMutation m a db st).1 s l q st
      (applyMutation m a db st).2
      (applyMutation_store m a db st b.id s l q)
      (applyMutation_db_filter m a db st hab)

theorem C7_witness :
    ((⟨1, "a", "pw", "user"⟩ : User).id ≠ (⟨2, "b", "pw", "user"⟩ : User).id)
    ∧ (((applyMutation (.createM ⟨"t", "c"⟩) ⟨1, "a", "pw", "user"⟩ []
          Store.empty).2 (cache_key (⟨2, "b", "pw", "user"⟩ : User).id 0 10
          none) =
        Store.empty (cache_key (⟨2, "b", "pw", "user"⟩ : User).id 0 10 none))
      ∧ ((get_notes ⟨1, "a", "pw", "user"⟩ [] 0 10 none Store.empty).2
          (cache_key (⟨2, "b", "pw", "user"⟩ : User).id 0 10 none) =
        Store.empty (cache_key (⟨2, "b", "pw", "user"⟩ : User).id 0 10 none))
      ∧ ((get_notes ⟨2, "b", "pw", "user"⟩
            (applyMutation (.createM ⟨"t", "c"⟩) ⟨1, "a", "pw", "user"⟩ []
              Store.empty).1 0 10 none
            (applyMutation (.createM ⟨"t", "c"⟩) ⟨1, "a", "pw", "user"⟩ []
              Store.empty).2).1 =
        (get_notes ⟨2, "b", "pw", "user"⟩ [] 0 10 none Store.empty).1)) :=
  ⟨by decide,
    C7_no_cross_tenant_bleed ⟨1, "a", "pw", "user"⟩ ⟨2, "b", "pw", "user"⟩
      (.createM ⟨"t", "c"⟩) [] Store.empty 0 10 none 0 10 none (by decide)⟩

end App
